import Mathlib

/-!
Shallow embedding of `polyplay.py` (polybar_polyplay): the player-registry
reconciliation, active-player selection, scrolling-text simulation, text
centering and metadata interpretation logic.

Python strings are modelled as `List Char` (`Str`); Python slices
`s[a:b]` (with `0 ≤ a ≤ b`) become `(s.drop a).take (b - a)`, `s.split(c)`
becomes `List.splitOn c`, and `" " * k` becomes `List.replicate k ' '`.
Calls to the external `playerctl` utility (a player's playback status, its
metadata record, the list of live identifiers) are passed in as explicit
parameters: a status oracle `stopped : Str → Bool`, a raw metadata record,
and a snapshot list of identifiers.
-/

set_option autoImplicit false

abbrev Str : Type := List Char

/-- Static configuration values from the `Config` class of `polyplay.py`
(the fields the modelled core reads; icon/color fields are rendering-only
and omitted). -/
structure Config where
  scrolling_msg_len : Nat
  english_text_only : Bool
  default_text : Str
  error_text : Str
deriving DecidableEq

/-- The configuration actually instantiated by the program: the class-level
values of `Config` in `polyplay.py`. -/
def theConfig : Config :=
  { scrolling_msg_len := 15
    english_text_only := false
    default_text := "default text".data
    error_text := "error text".data }

/-- `Utils.center_text`: pad or truncate `text_to_center` to appear centered
in a window of `msg_display_len` columns.  Python's `" " * k` is
`List.replicate k ' '`; in the padding branch both replicate counts are
nonnegative in Python as well, so `Nat` subtraction is exact here. -/
def center_text (text_to_center : Str) (msg_display_len : Nat) : Str :=
  if text_to_center.length ≥ msg_display_len then
    text_to_center.take msg_display_len
  else
    let left_padding := List.replicate ((msg_display_len - text_to_center.length) / 2) ' '
    let right_padding :=
      List.replicate (msg_display_len - (left_padding.length + text_to_center.length) - 1) ' '
    left_padding ++ text_to_center ++ right_padding

/-- `Utils.is_english`: the utf-8 encode / ascii decode round trip succeeds
exactly when every character is an ASCII code point. -/
def is_english (text_to_check : Str) : Bool :=
  text_to_check.all fun c => c.toNat ≤ 127

/-- The repeated-substitution part of `Utils.clean_track_title`:
`re.sub(r"%20", " ", s)` replaces every (left-to-right, non-overlapping)
occurrence of `%20` with a single space. -/
def sub_pct20 : Str → Str
  | '%' :: '2' :: '0' :: rest => ' ' :: sub_pct20 rest
  | c :: rest => c :: sub_pct20 rest
  | [] => []

/-- `Utils.clean_track_title`: `re.sub(r"%20", " ", title.split("/")[-1])`.
Python `split` never returns an empty list, so `[-1]` is its last element. -/
def clean_track_title (title_to_clean : Str) : Str :=
  sub_pct20 ((title_to_clean.splitOn '/').getLastD [])

/-- A tracked player (class `Player`): its identifier and the mutable
per-player scrolling state.  `uid` models Python object identity (each
`Player(...)` call yields a distinct object); the constructor sets
`display_text = ""` and `display_text_start_index = 0`. -/
structure Player where
  player_name : Str
  display_text : Str
  display_text_start_index : Nat
  uid : Nat
deriving DecidableEq

/-- The mutable state of the `PolyPlay` object: the ordered registry
`player_list`, the signal-mutated `display_index`, and the allocator
counter `fresh` backing `Player.uid`. -/
structure PolyPlay where
  player_list : List Player
  display_index : Int
  fresh : Nat
deriving DecidableEq

/-- The interpretation of a raw metadata record, from `Player.metadata`:
split the record on commas; fewer than 3 fields is malformed and yields the
centered error text; otherwise destructure as `title, *artists, vlc_title`,
fall back to the (verbatim) last field when the title is empty, optionally
apply the ASCII filter per field, join artists with commas and render
`f"{title} - {artists_str}"`.  (The `artists if artists != "" else ...`
line of the source compares a list with a string and therefore always keeps
the list; it is modelled as the identity it is.) -/
def metadata (cfg : Config) (raw : Str) : Str :=
  let fields := raw.splitOn ','
  if fields.length < 3 then
    center_text cfg.error_text cfg.scrolling_msg_len
  else
    let title0 := fields.headI
    let vlc_title := fields.getLastD []
    let artists0 := (fields.drop 1).dropLast
    let title1 := if title0 = [] then vlc_title else title0
    let title2 :=
      if cfg.english_text_only then
        if is_english title1 then title1 else cfg.error_text
      else title1
    let artists1 :=
      if cfg.english_text_only then
        artists0.map fun a => if is_english a then a else cfg.error_text
      else artists0
    let artists_str := List.intercalate [','] artists1
    title2 ++ (' ' :: '-' :: ' ' :: []) ++ artists_str

/-- `PolyPlay._update_scrolling_text`, with the two external reads
(`player.is_playing`, `player.metadata`) passed in as `is_playing` and
`meta`.  Returns the produced string together with the updated player.
When not playing, scrolling freezes (centering only on a first tick with no
cached text).  When playing, the window
`full_media_text[trunc_start:trunc_end]` is taken and, if short of
`msg_len`, padded with `full_media_text[:(trunc_start + msg_len) % n]`,
then the offset advances modulo `n`. -/
def update_scrolling_text (is_playing : Bool) (meta : Str) (msg_len : Nat)
    (p : Player) : Str × Player :=
  if !is_playing then
    if p.display_text = [] then
      let centered := center_text meta msg_len
      (centered, { p with display_text := centered })
    else
      (p.display_text, p)
  else
    let full_media_text := meta ++ (' ' :: ' ' :: [])
    let trunc_start := p.display_text_start_index
    let trunc_end := trunc_start + msg_len
    let scrolling_text := (full_media_text.drop trunc_start).take (trunc_end - trunc_start)
    let padding_text :=
      if scrolling_text.length < msg_len then
        full_media_text.take ((trunc_start + msg_len) % full_media_text.length)
      else []
    let result := scrolling_text ++ padding_text
    (result,
      { p with
        display_text := result
        display_text_start_index := (trunc_start + 1) % full_media_text.length })

/-- The removal loop of `PolyPlay._update_player_list`, with CPython `for`
semantics made explicit.  The Python loop walks `player_list` by index
while possibly calling `player_list.remove(existing_player)` on the element
under the cursor (removal is by object identity — `Player` defines no
`__eq__` — and each object occurs at most once, so `remove` deletes exactly
the element under the cursor).  Removing the current element shifts the
rest left, so the `for` loop never examines the element immediately after a
removed one: that element is kept unexamined (`q` below).  When the current
name is still live, the name is deleted from the (first occurrence in the)
snapshot list instead. -/
def reconcile_loop (players : List Player) (new_list : List Str) :
    List Player × List Str :=
  match players with
  | [] => ([], new_list)
  | p :: rest =>
    if p.player_name ∈ new_list then
      let (res, nl) := reconcile_loop rest (new_list.erase p.player_name)
      (p :: res, nl)
    else
      match rest with
      | [] => ([], new_list)
      | q :: rest2 =>
        let (res, nl) := reconcile_loop rest2 new_list
        (q :: res, nl)

/-- The append loop of `PolyPlay._update_player_list`: every name left in
the pruned snapshot gets a fresh `Player` object; a player observed
`Stopped` at creation time is discarded (its object — hence a `uid` — was
still allocated), the others are appended in order. -/
def append_loop (stopped : Str → Bool) (pl : List Player) (nl : List Str)
    (fresh : Nat) : List Player × Nat :=
  match nl with
  | [] => (pl, fresh)
  | name :: rest =>
    let new_player : Player := ⟨name, [], 0, fresh⟩
    if stopped name then
      append_loop stopped pl rest (fresh + 1)
    else
      append_loop stopped (pl ++ [new_player]) rest (fresh + 1)

/-- `PolyPlay._update_player_list`: reconcile the registry against the
snapshot `new_list` returned by `Player.get_available_players()`, with the
external per-name `is_stopped` probe passed as `stopped`.  The whole body
is guarded by `len(new_list) != len(self.player_list)`; when the lengths
match, nothing at all happens. -/
def update_player_list (stopped : Str → Bool) (st : PolyPlay)
    (new_list : List Str) : PolyPlay :=
  if new_list.length ≠ st.player_list.length then
    let (pl1, nl1) := reconcile_loop st.player_list new_list
    let (pl2, fresh2) := append_loop stopped pl1 nl1 st.fresh
    { st with player_list := pl2, fresh := fresh2 }
  else st

/-- `PolyPlay._select_player_to_display`: empty registry resets the index
and yields `none`; a singleton registry resets the index and yields its
player; otherwise the index is clamped (modulo when `≥ len - 1`, to
`len - 1` when negative) and the player at the clamped position is
returned.  Python's `%` on a positive modulus agrees with `Int.emod`;
indexing is modelled with `getElem?` (the reached index is provably in
range). -/
def select_player_to_display (st : PolyPlay) : Option Player × PolyPlay :=
  if st.player_list.length < 1 then
    (none, { st with display_index := 0 })
  else if st.player_list.length = 1 then
    (st.player_list[0]?, { st with display_index := 0 })
  else
    let n : Int := st.player_list.length
    let i1 : Int :=
      if st.display_index ≥ n - 1 then st.display_index % n else st.display_index
    let i2 : Int := if i1 < 0 then n - 1 else i1
    (st.player_list[i2.toNat]?, { st with display_index := i2 })

/-- `PolyPlay.cycle_player` (SIGUSR1 handler): reset to 0 on a registry of
at most one player, else increment the index without bound. -/
def cycle_player (st : PolyPlay) : PolyPlay :=
  if st.player_list.length ≤ 1 then { st with display_index := 0 }
  else { st with display_index := st.display_index + 1 }

/-- `PolyPlay.reverse_cycle_player` (SIGUSR2 handler): reset to 0 on a
registry of at most one player, else decrement the index without bound. -/
def reverse_cycle_player (st : PolyPlay) : PolyPlay :=
  if st.player_list.length ≤ 1 then { st with display_index := 0 }
  else { st with display_index := st.display_index - 1 }

/-- Claim C1 (code bug): the spec says reconciliation removes every tracked
player whose identifier is absent from the snapshot, leaving the registry
equal to the snapshot minus first-seen-stopped identifiers.  The code skips
the whole reconciliation body whenever the snapshot has the same length as
the registry: with registry `["a"]` and snapshot `["b"]` (nothing stopped)
the state is returned untouched, so the absent player `"a"` survives and
the live `"b"` is never added — contradicting the function's own docstring
("remove players if they no longer exist"). -/
theorem claim_C1_code_bug :
    update_player_list (fun _ => false) ⟨[⟨"a".data, [], 0, 0⟩], 0, 1⟩ ["b".data]
      = ⟨[⟨"a".data, [], 0, 0⟩], 0, 1⟩
    ∧ "a".data ∉ ["b".data]
    ∧ "b".data ∉ (update_player_list (fun _ => false) ⟨[⟨"a".data, [], 0, 0⟩], 0, 1⟩
        ["b".data]).player_list.map Player.player_name := by decide

/-- Claim C4 (counterexample): `center_text "abc" 7` does not produce a
7-character string as the claim states — the result is `"  abc "`, of
length 6. -/
theorem claim_C4_counterexample :
    center_text "abc".data 7 = "  abc ".data
    ∧ (center_text "abc".data 7).length ≠ 7 := by decide

/-- Claim C4 (amended): centering `"abc"` into target width 7 yields the
6-character string `"  abc "`, with left padding `(7 - 3) / 2 = 2` spaces
and right padding `7 - 3 - 2 - 1 = 1` space around `"abc"`, exactly per the
off-by-one padding rule. -/
theorem claim_C4_amended :
    center_text "abc".data 7 = List.replicate 2 ' ' ++ "abc".data ++ List.replicate 1 ' '
    ∧ 2 = (7 - ("abc".data).length) / 2
    ∧ 1 = 7 - ("abc".data).length - 2 - 1 := by decide

/-- Claim C5 (code bug): reconciliation is not idempotent.  Starting from a
registry tracking `a` and `b` with snapshot `["c"]` (nothing stopped), one
call yields names `[b, c]` (the loop-with-removal skips `b`), and a second
call with the same snapshot yields `[c, c]` — the second call changes the
registry again, contradicting the documented intent. -/
theorem claim_C5_code_bug :
    ((update_player_list (fun _ => false)
        (update_player_list (fun _ => false)
          ⟨[⟨"a".data, [], 0, 0⟩, ⟨"b".data, [], 0, 1⟩], 0, 2⟩ ["c".data])
        ["c".data]).player_list.map Player.player_name = ["c".data, "c".data])
    ∧ ((update_player_list (fun _ => false)
        ⟨[⟨"a".data, [], 0, 0⟩, ⟨"b".data, [], 0, 1⟩], 0, 2⟩
        ["c".data]).player_list.map Player.player_name = ["b".data, "c".data])
    ∧ update_player_list (fun _ => false)
        (update_player_list (fun _ => false)
          ⟨[⟨"a".data, [], 0, 0⟩, ⟨"b".data, [], 0, 1⟩], 0, 2⟩ ["c".data])
        ["c".data]
      ≠ update_player_list (fun _ => false)
          ⟨[⟨"a".data, [], 0, 0⟩, ⟨"b".data, [], 0, 1⟩], 0, 2⟩ ["c".data] := by decide

/-- Claim C8 (code bug): reconciling registry `[b, c]` against snapshot
`["c"]` removes `b` under the iteration cursor, which makes the `for` loop
skip the already-tracked `c`; `"c"` is therefore never pruned from the
snapshot and a second `Player` object with the identifier `"c"` is created
and appended, even though `c` is still tracked — the already-tracked player
is recreated and the registry ends with duplicate identifiers. -/
theorem claim_C8_code_bug :
    (update_player_list (fun _ => false)
      ⟨[⟨"b".data, [], 0, 0⟩, ⟨"c".data, [], 0, 1⟩], 0, 2⟩
      ["c".data]).player_list = [⟨"c".data, [], 0, 1⟩, ⟨"c".data, [], 0, 2⟩]
    ∧ (⟨"c".data, [], 0, 2⟩ : Player) ∉
        ([⟨"b".data, [], 0, 0⟩, ⟨"c".data, [], 0, 1⟩] : List Player)
    ∧ ¬ ((update_player_list (fun _ => false)
        ⟨[⟨"b".data, [], 0, 0⟩, ⟨"c".data, [], 0, 1⟩], 0, 2⟩
        ["c".data]).player_list.map Player.player_name).Nodup := by decide

/-- Claim C9: the implicit frame condition of `_update_player_list` — when
the snapshot has exactly as many identifiers as the registry has tracked
players, the guard `len(new_list) != len(self.player_list)` fails and the
state is returned completely unchanged, whatever the identifiers are. -/
theorem claim_C9_theorem (stopped : Str → Bool) (st : PolyPlay) (new_list : List Str)
    (h : new_list.length = st.player_list.length) :
    update_player_list stopped st new_list = st := by
  simp [update_player_list, h]

/-- Claim C9 witness: a registry tracking `a` reconciled against the
equal-length snapshot `["b"]` is left unchanged. -/
theorem claim_C9_witness :
    update_player_list (fun _ => false) ⟨[⟨"a".data, [], 0, 0⟩], 2, 1⟩ ["b".data]
      = ⟨[⟨"a".data, [], 0, 0⟩], 2, 1⟩ :=
  claim_C9_theorem (fun _ => false) ⟨[⟨"a".data, [], 0, 0⟩], 2, 1⟩ ["b".data] (by decide)

/-- Claim C6 (code bug): the record `",b,file:///home/x/Song%20Title.mp3"`
has an empty title, and the code falls back to the raw URL field verbatim,
displaying `"file:///home/x/Song%20Title.mp3 - b"`.  The URL-derived title
the claim requires is what `Utils.clean_track_title` computes
(`"Song Title.mp3"`), but that function is never called anywhere in the
program. -/
theorem claim_C6_code_bug :
    metadata theConfig ",b,file:///home/x/Song%20Title.mp3".data
      = "file:///home/x/Song%20Title.mp3 - b".data
    ∧ clean_track_title "file:///home/x/Song%20Title.mp3".data = "Song Title.mp3".data
    ∧ "file:///home/x/Song%20Title.mp3 - b".data ≠ "Song Title.mp3 - b".data := by decide

/-- Claim C2 (counterexample): a scroll update on a playing player with
metadata text `"abc"` (so text plus two-space separator has length 5) and
window length 15 produces `"abc  "`, of length 5, not 15. -/
theorem claim_C2_counterexample :
    (update_scrolling_text true "abc".data 15 ⟨"x".data, [], 0, 0⟩).1 = "abc  ".data
    ∧ ((update_scrolling_text true "abc".data 15 ⟨"x".data, [], 0, 0⟩).1).length ≠ 15 := by
  decide

/-- Claim C3 (counterexample): with two tracked players and
`display_index = -2`, selection returns the player at position 1 (the
negative index is clamped to `len - 1`), while `-2 mod 2 = 0` — the
returned player's position is not `index mod len`. -/
theorem claim_C3_counterexample :
    (select_player_to_display ⟨[⟨"a".data, [], 0, 0⟩, ⟨"b".data, [], 0, 1⟩], -2, 2⟩).1
      = some ⟨"b".data, [], 0, 1⟩
    ∧ ((-2 : Int) % 2).toNat = 0
    ∧ ([⟨"a".data, [], 0, 0⟩, ⟨"b".data, [], 0, 1⟩] : List Player)[((-2 : Int) % 2).toNat]?
        = some ⟨"a".data, [], 0, 0⟩
    ∧ (⟨"b".data, [], 0, 1⟩ : Player) ≠ ⟨"a".data, [], 0, 0⟩ := by decide

/-- Claim C10: for input text strictly shorter than the target width (target
at least 1) the centering function returns a string of length exactly
`target - 1`; for input of length at least the target it returns exactly
the first `target` characters. -/
theorem claim_C10_center_props (t : Str) (target : Nat) :
    (1 ≤ target → t.length < target → (center_text t target).length = target - 1)
    ∧ (target ≤ t.length → center_text t target = t.take target) := by
  constructor
  · intro _ h2
    have hlt : ¬ t.length ≥ target := by omega
    simp only [center_text, if_neg hlt, List.length_append, List.length_replicate]
    omega
  · intro h
    simp only [center_text, if_pos (by omega : t.length ≥ target)]

/-- Claim C10 witness: `center_text "abc" 7` has length 6, and
`center_text "abcdef" 4` is the first 4 characters of the input. -/
theorem claim_C10_witness :
    (center_text "abc".data 7).length = 7 - 1
    ∧ center_text "abcdef".data 4 = ("abcdef".data).take 4 :=
  ⟨(claim_C10_center_props "abc".data 7).1 (by decide) (by decide),
   (claim_C10_center_props "abcdef".data 4).2 (by decide)⟩

/-- Claim C2 (amended): for every metadata text, window length `w`, and
player whose scroll offset is within the wrapped text (offset strictly less
than `length(text) + 2`) and with `w` at most `length(text) + 2`, a scroll
update in the Playing state produces a string of length exactly `w`. -/
theorem claim_C2_amended (meta : Str) (w : Nat) (p : Player)
    (h1 : p.display_text_start_index < meta.length + 2) (h2 : w ≤ meta.length + 2) :
    ((update_scrolling_text true meta w p).1).length = w := by
  unfold update_scrolling_text
  simp only [Bool.not_true, Bool.false_eq_true, if_false, Nat.add_sub_cancel_left,
    List.length_append, List.length_take, List.length_drop, List.length_cons,
    List.length_nil]
  set s := p.display_text_start_index with hs
  set m := meta.length with hm
  split
  · next hc =>
    have hle : m + (0 + 1 + 1) ≤ s + w := by omega
    have hmod : (s + w) % (m + (0 + 1 + 1)) = s + w - (m + (0 + 1 + 1)) := by
      rw [Nat.mod_eq_sub_mod hle]
      exact Nat.mod_eq_of_lt (by omega)
    simp only [List.length_take, List.length_append, List.length_cons, List.length_nil,
      hmod, ← hm]
    omega
  · next hc =>
    simp only [List.length_nil]
    omega

/-- Claim C2 witness: with 13-character metadata (wrapped length 15), window
length 15 and offset 0, the produced string has length 15. -/
theorem claim_C2_witness :
    ((update_scrolling_text true "abcdefghijklm".data 15 ⟨"x".data, [], 0, 0⟩).1).length = 15 :=
  claim_C2_amended "abcdefghijklm".data 15 ⟨"x".data, [], 0, 0⟩ (by decide) (by decide)

/-- Claim C3 (amended): for every state — hence after any sequence of cycle
calls and registry changes — selection returns `none` iff the registry is
empty, never an out-of-range element, and the returned player's position is
`index mod len` when the held index is nonnegative and `len - 1` when it is
negative. -/
theorem claim_C3_amended (st : PolyPlay) :
    ((select_player_to_display st).1 = none ↔ st.player_list = [])
    ∧ (st.player_list ≠ [] →
        ∃ k : Nat, k < st.player_list.length
          ∧ (select_player_to_display st).1 = st.player_list[k]?
          ∧ st.player_list[k]?.isSome
          ∧ (k : Int) =
              (if st.display_index < 0 then (st.player_list.length : Int) - 1
               else st.display_index % st.player_list.length)) := by
  rcases st with ⟨pl, di, fr⟩
  by_cases h0 : pl.length < 1
  · have hnil : pl = [] := by
      cases pl with
      | nil => rfl
      | cons a t => simp at h0
    subst hnil
    constructor
    · simp [select_player_to_display]
    · intro h; exact absurd rfl h
  · have hne : pl ≠ [] := by
      intro h; subst h; simp at h0
    have hlen1 : 1 ≤ pl.length := by omega
    by_cases h1 : pl.length = 1
    · obtain ⟨a, ha⟩ := List.length_eq_one.mp h1
      subst ha
      have hsel : (select_player_to_display ⟨[a], di, fr⟩).1 = [a][0]? := by
        simp [select_player_to_display]
      constructor
      · rw [hsel]; simp
      · intro _
        refine ⟨0, by simp, by rw [hsel], by simp, ?_⟩
        simp only [List.length_singleton, Nat.cast_one, Int.emod_one]
        split <;> norm_num
    · have h2 : 2 ≤ pl.length := by omega
      have hn0 : (0 : Int) < (pl.length : Int) := by
        exact_mod_cast Nat.lt_of_lt_of_le Nat.zero_lt_two h2
      constructor
      · simp only [select_player_to_display, h0, if_false, h1, if_false]
        constructor
        · intro h
          exfalso
          set i1 : Int := if di ≥ (pl.length : Int) - 1 then di % (pl.length : Int) else di
            with hi1
          set i2 : Int := if i1 < 0 then (pl.length : Int) - 1 else i1 with hi2
          have hge : 0 ≤ i2 := by
            rw [hi2]; split
            · omega
            · next hni => omega
          have hlt : i2 < (pl.length : Int) := by
            rw [hi2]
            split
            · omega
            · next hni =>
              rw [hi1]
              split
              · next hd => exact Int.emod_lt_of_pos di hn0
              · next hd => omega
          have hnat : i2.toNat < pl.length := by omega
          rw [List.getElem?_eq_getElem hnat] at h
          simp at h
        · intro h; subst h; simp at h2
      · intro _
        simp only [select_player_to_display, h0, if_false, h1, if_false]
        set i1 : Int := if di ≥ (pl.length : Int) - 1 then di % (pl.length : Int) else di
          with hi1
        set i2 : Int := if i1 < 0 then (pl.length : Int) - 1 else i1 with hi2
        have hemod_nonneg : 0 ≤ di % (pl.length : Int) := Int.emod_nonneg di (by omega)
        have hemod_lt : di % (pl.length : Int) < (pl.length : Int) := Int.emod_lt_of_pos di hn0
        have hge : 0 ≤ i2 := by
          rw [hi2]; split
          · omega
          · next hni => omega
        have hlt : i2 < (pl.length : Int) := by
          rw [hi2]; split
          · omega
          · next hni =>
            rw [hi1]
            split
            · next hd => exact hemod_lt
            · next hd => omega
        have hval : i2 = (if di < 0 then (pl.length : Int) - 1 else di % (pl.length : Int)) := by
          rw [hi2, hi1]
          by_cases hd : di ≥ (pl.length : Int) - 1
          · rw [if_pos hd]
            rw [if_neg (by omega : ¬ di % (pl.length : Int) < 0)]
            rw [if_neg (by omega : ¬ di < 0)]
          · rw [if_neg hd]
            by_cases hdn : di < 0
            · rw [if_pos hdn, if_pos hdn]
            · rw [if_neg hdn, if_neg hdn]
              rw [Int.emod_eq_of_lt (by omega) (by omega)]
        refine ⟨i2.toNat, by omega, rfl, ?_, ?_⟩
        · rw [List.getElem?_eq_getElem (by omega : i2.toNat < pl.length)]
          simp
        · rw [Int.toNat_of_nonneg hge, hval]

/-- Claim C3 witness: with two tracked players and held index 5, selection
returns the player at position `5 mod 2 = 1`, in range, and not `none`. -/
theorem claim_C3_witness :
    ((select_player_to_display ⟨[⟨"a".data, [], 0, 0⟩, ⟨"b".data, [], 0, 1⟩], 5, 2⟩).1 = none
      ↔ ([⟨"a".data, [], 0, 0⟩, ⟨"b".data, [], 0, 1⟩] : List Player) = [])
    ∧ ∃ k : Nat, k < ([⟨"a".data, [], 0, 0⟩, ⟨"b".data, [], 0, 1⟩] : List Player).length
        ∧ (select_player_to_display ⟨[⟨"a".data, [], 0, 0⟩, ⟨"b".data, [], 0, 1⟩], 5, 2⟩).1
            = ([⟨"a".data, [], 0, 0⟩, ⟨"b".data, [], 0, 1⟩] : List Player)[k]?
        ∧ ([⟨"a".data, [], 0, 0⟩, ⟨"b".data, [], 0, 1⟩] : List Player)[k]?.isSome
        ∧ (k : Int) = (if (5 : Int) < 0
            then (([⟨"a".data, [], 0, 0⟩, ⟨"b".data, [], 0, 1⟩] : List Player).length : Int) - 1
            else (5 : Int) % ([⟨"a".data, [], 0, 0⟩, ⟨"b".data, [], 0, 1⟩] : List Player).length) :=
  ⟨(claim_C3_amended ⟨[⟨"a".data, [], 0, 0⟩, ⟨"b".data, [], 0, 1⟩], 5, 2⟩).1,
   (claim_C3_amended ⟨[⟨"a".data, [], 0, 0⟩, ⟨"b".data, [], 0, 1⟩], 5, 2⟩).2 (by decide)⟩

/-- Claim C7: with the program's configuration, metadata interpretation
yields the centered error placeholder exactly for records with fewer than 3
comma-separated fields; the well-formed example record renders as
`"Song Title - Artist One"` and the 2-field record `"a,b"` yields the
placeholder. -/
theorem claim_C7_theorem :
    (∀ raw : Str,
      metadata theConfig raw = center_text theConfig.error_text theConfig.scrolling_msg_len
        ↔ (raw.splitOn ',').length < 3)
    ∧ metadata theConfig "Song Title,Artist One,file:///home/x/Song%20Title.mp3".data
        = "Song Title - Artist One".data
    ∧ metadata theConfig "a,b".data
        = center_text theConfig.error_text theConfig.scrolling_msg_len := by
  refine ⟨?_, by decide, by decide⟩
  intro raw
  constructor
  · intro h
    by_contra hge
    rw [metadata, if_neg hge] at h
    have hm : '-' ∈ center_text theConfig.error_text theConfig.scrolling_msg_len := by
      rw [← h]
      simp
    revert hm
    decide
  · intro h
    rw [metadata, if_pos h]
